import Mathlib

/-!
Verification of the field-level rule engine of the PII-detection and
data-quality pipeline: profiling (completeness and type conformance),
validation reporting, remediation (name/phone normalization), and masking
(email/phone/address/name/DOB), shallowly embedded from the Python sources
in `src/part1/dataprofiler.py`, `src/part3/data_validator.py`,
`src/part4/cleaning.py`, `src/part5/data_masker.py`, `Part 1/quality_analysis.py`
and `main.py`.

Machine nulls (pandas `NaN`/`None`) are embedded as `Option.none`; the
Python `str(...)` cast that pandas applies inside `astype(str)` and
`.apply` renders a CSV-loaded null as the string `"nan"`.
-/

namespace Pipeline

/-- Python `str(...)` applied to a possibly-null string cell: a pandas
`NaN` prints as `"nan"`, everything else is itself. -/
def pyStr : Option String → String
  | none => "nan"
  | some s => s

/-- Decidable substring test on character lists: does `needle` occur
contiguously inside `hay`?  (Python `needle in hay` / `str.contains` with a
literal pattern.)  An empty needle occurs in every string. -/
def leadsWith : List Char → List Char → Bool
  | _, [] => true
  | [], _ :: _ => false
  | h :: hs, n :: ns => h = n && leadsWith hs ns

def hasSubList (hay needle : List Char) : Bool :=
  match hay with
  | [] => needle.isEmpty
  | _ :: t => leadsWith hay needle || hasSubList t needle

def hasSub (hay needle : String) : Bool :=
  hasSubList hay.data needle.data

/-- Python `str.lower` restricted to ASCII data. -/
def pyLower (s : String) : String :=
  ⟨s.data.map Char.toLower⟩

/-- Python `str.strip()` (no argument): drop leading and trailing
whitespace. -/
def pyStrip (s : String) : String :=
  ⟨(s.data.dropWhile Char.isWhitespace).reverse.dropWhile Char.isWhitespace |>.reverse⟩

/-- Python `str.title()`: an alphabetic character is uppercased when the
previous character is not alphabetic and lowercased otherwise;
non-alphabetic characters are kept and reset the word boundary. -/
def pyTitleGo : Bool → List Char → List Char
  | _, [] => []
  | prevAlpha, c :: t =>
    if c.isAlpha then
      (if prevAlpha then c.toLower else c.toUpper) :: pyTitleGo true t
    else
      c :: pyTitleGo false t

def pyTitle (s : String) : String :=
  ⟨pyTitleGo false s.data⟩

/-- Pandas element-wise `!=` between an original object series and its
string-cast transform: a null on the left compares unequal to everything
(`NaN != x` is `True` in pandas). -/
def neqPandas : Option String → String → Bool
  | none, _ => true
  | some a, b => a != b

/-! ## Record table (fixed customer schema)

The pipeline's tables all share the fixed ten-column customer schema, so a
row is a record with one field per column.  String-typed cells are
`Option String` (`none` = missing); `customer_id` and `income` are numeric
cells. -/

structure Row where
  customer_id : Option Int
  first_name : Option String
  last_name : Option String
  email : Option String
  phone : Option String
  address : Option String
  date_of_birth : Option String
  created_date : Option String
  income : Option Int
  account_status : Option String
deriving DecidableEq, Repr

def Table := List Row
deriving instance DecidableEq, Repr for Table

/-- `len(df.columns)` for the fixed schema. -/
def numColumns (_ : Table) : Nat := 10

/-- `len(df)`. -/
def numRows (t : Table) : Nat := t.length

/-- A convenient all-null row for building concrete test tables. -/
def blankRow : Row :=
  ⟨none, none, none, none, none, none, none, none, none, none⟩

/-! ## Remediator (`src/part4/cleaning.py`)

`DataRemediator` holds a private copy of the table plus the statistics
record initialised in `__init__`:
`{"phone_fixes": 0, "date_fixes": 0, "name_fixes": 0, "missing_fills": {}}`. -/

structure RemStats where
  phone_fixes : Nat
  date_fixes : Nat
  name_fixes : Nat
  missing_fills : List (String × Nat)
deriving DecidableEq, Repr

def initStats : RemStats := ⟨0, 0, 0, []⟩

structure DataRemediator where
  df : Table
  log_stats : RemStats
deriving DecidableEq, Repr

/-- `DataRemediator.__init__`: the remediator owns a copy of the frame and
fresh statistics. -/
def DataRemediator.init (df : Table) : DataRemediator :=
  ⟨df, initStats⟩

/-- The name transform applied per cell by `normalize_names`:
`astype(str).str.strip().str.title()`.  Note it is applied to the string
cast, so a null cell becomes the string `"nan"` before stripping and
title-casing. -/
def nameTransform (v : Option String) : String :=
  pyTitle (pyStrip (pyStr v))

/-- `(before != self.df[col]).sum()` for one column. -/
def nameDiffCount (col : List (Option String)) : Nat :=
  (col.map (fun v => neqPandas v (nameTransform v))).count true

/-- `DataRemediator.normalize_names`: replaces `first_name` and
`last_name` by their stripped title-cased string casts and adds the count
of changed cells (pandas `!=`) to `name_fixes`. -/
def normalizeNames (r : DataRemediator) : DataRemediator :=
  let fixes :=
    nameDiffCount (r.df.map (·.first_name)) +
    nameDiffCount (r.df.map (·.last_name))
  { df := r.df.map (fun row =>
      { row with
        first_name := some (nameTransform row.first_name)
        last_name := some (nameTransform row.last_name) })
    log_stats := { r.log_stats with name_fixes := r.log_stats.name_fixes + fixes } }

/-- `re.sub(r'\D', '', str(val))`: keep only the digit characters of the
string cast. -/
def digitsOf (v : Option String) : List Char :=
  (pyStr v).data.filter Char.isDigit

/-- `format_phone` inside `normalize_phones`: when exactly 10 digits
remain the value is reformatted as `DDD-DDD-DDDD` and one fix is counted;
otherwise the value is returned unmodified and nothing is counted.  The
result pairs the new cell with the number of fixes it contributed. -/
def formatPhone (v : Option String) : Option String × Nat :=
  let digits := digitsOf v
  if digits.length = 10 then
    (some ⟨digits.take 3 ++ ['-'] ++ (digits.drop 3).take 3 ++ ['-'] ++ digits.drop 6⟩, 1)
  else
    (v, 0)

/-- `DataRemediator.normalize_phones`: apply `format_phone` to the `phone`
column, accumulating the fix count into `phone_fixes`. -/
def normalizePhones (r : DataRemediator) : DataRemediator :=
  let fixes := (r.df.map (fun row => (formatPhone row.phone).2)).sum
  { df := r.df.map (fun row => { row with phone := (formatPhone row.phone).1 })
    log_stats := { r.log_stats with phone_fixes := r.log_stats.phone_fixes + fixes } }

end Pipeline

namespace Pipeline

/-- A one-row table holding only a phone value. -/
def phoneRowTable (p : Option String) : Table :=
  [{ blankRow with phone := p }]

/-- A one-row table holding only a first/last name pair. -/
def nameRowTable (f l : Option String) : Table :=
  [{ blankRow with first_name := f, last_name := l }]

/-! ## Profiler (`src/part1/dataprofiler.py`)

`_check_completeness` iterates over every column of the frame, whatever
its dtype, so it is embedded over a generic column of cells.  A cell is a
null, a string, or a number; a column loaded from CSV has pandas dtype
`object` exactly when it holds strings, recorded here as a flag. -/

inductive Cell where
  | null
  | str (s : String)
  | intv (n : Int)
deriving DecidableEq, Repr

/-- Pandas `isna` on a cell. -/
def cellIsNa : Cell → Bool
  | .null => true
  | _ => false

/-- Python `str(...)` of a cell as produced by `astype(str)`. -/
def pyStrCell : Cell → String
  | .null => "nan"
  | .str s => s
  | .intv n => toString n

/-- `self.df[col].isna().sum()`. -/
def nullCount (cells : List Cell) : Nat :=
  cells.countP (fun c => cellIsNa c)

/-- `self.df[col].astype(str).str.lower().str.contains('invalid_date').sum()`. -/
def invalidStrCount (cells : List Cell) : Nat :=
  cells.countP (fun c => hasSub (pyLower (pyStrCell c)) "invalid_date")

/-- `total_missing = null_count + invalid_str_count`, where the sentinel
scan runs only on `object`-dtype (string) columns. -/
def missingCount (isObj : Bool) (cells : List Cell) : Nat :=
  nullCount cells + (if isObj then invalidStrCount cells else 0)

/-- Round-half-to-even of `m * 100 / d` — the rounding performed by the
Python float format `f"{percent:.0f}"` on the exact ratio. -/
def roundHEdivNat (m d : Nat) : Nat :=
  if 2 * (m * 100 % d) < d then m * 100 / d
  else if d < 2 * (m * 100 % d) then m * 100 / d + 1
  else if (m * 100 / d) % 2 = 0 then m * 100 / d else m * 100 / d + 1

/-- One column's entry of `_check_completeness`:
`percent = ((total_rows - total_missing) / total_rows) * 100`, rendered
to the nearest whole percent.  The division is written in the source with
no guard on `total_rows`, so on an empty table no well-defined percentage
exists; the undefined outcome is `none`.  (`Part 1/quality_analysis.py`
computes the identical expression.) -/
def completenessPercent (isObj : Bool) (cells : List Cell) : Option Nat :=
  if cells.length = 0 then none
  else some (roundHEdivNat (cells.length - missingCount isObj cells) cells.length)

/-- View a string column of a table as a generic cell column. -/
def stringColCells (t : Table) (f : Row → Option String) : List Cell :=
  t.map (fun r => match f r with | none => Cell.null | some s => Cell.str s)

/-! `_check_data_types` appends the static type map, then flags
`date_of_birth` when any string-cast value matches the regex
`'/|invalid'` (contains a `/` or the substring `invalid`), then flags
`income`.  There is no corresponding check on `created_date` in
`dataprofiler.py`; the standalone script `Part 1/quality_analysis.py`
has one. -/

def slashOrInvalid (v : Option String) : Bool :=
  hasSub (pyStr v) "/" || hasSub (pyStr v) "invalid"

def dobFlagLine : String := "- date_of_birth: STRING  (should be DATE)"

def createdFlagLine : String := "- created_date: STRING  (should be DATE)"

def incomeFlagLine : String := "- income: NUMERIC  (detected as Mixed/Object)"

/-- The static `expected` type map of `DataProfiler._check_data_types`;
every column of the fixed schema is present, so every line is emitted. -/
def baselineTypeLines : List String :=
  ["- customer_id: INT", "- first_name: STRING", "- last_name: STRING",
   "- email: STRING", "- phone: STRING", "- address: STRING",
   "- account_status: STRING"]

/-- `DataProfiler._check_data_types` (report lines it appends).  The
`income` dtype is an input flag, as pandas infers it from the CSV. -/
def checkDataTypes (incomeIsObject : Bool) (t : Table) : List String :=
  ["\nDATA TYPES:"] ++ baselineTypeLines
  ++ (if t.any (fun r => slashOrInvalid r.date_of_birth) then [dobFlagLine] else [])
  ++ (if incomeIsObject || t.any (fun r => r.income.isNone) then [incomeFlagLine] else [])

/-- The static type map of `Part 1/quality_analysis.py` (its values carry
a trailing space). -/
def qaBaselineTypeLines : List String :=
  ["- customer_id: INT ", "- first_name: STRING ", "- last_name: STRING ",
   "- email: STRING ", "- phone: STRING ", "- address: STRING ",
   "- account_status: STRING "]

/-- The DATA TYPES section of `run_exploratory_analysis` in
`Part 1/quality_analysis.py`: unlike `DataProfiler`, it also flags
`created_date`. -/
def qaCheckDataTypes (incomeIsObject : Bool) (t : Table) : List String :=
  ["\nDATA TYPES:"] ++ qaBaselineTypeLines
  ++ (if t.any (fun r => slashOrInvalid r.date_of_birth) then [dobFlagLine] else [])
  ++ (if incomeIsObject || t.any (fun r => r.income.isNone) then [incomeFlagLine] else [])
  ++ (if t.any (fun r => slashOrInvalid r.created_date) then [createdFlagLine] else [])

/-! ## Masker (`src/part5/data_masker.py`)

Python runtime errors that the maskers and the orchestrator can raise. -/

inductive PyErr where
  | valueError
  | indexError
  | attributeError (attr : String)
  | fileNotFound
deriving DecidableEq, Repr

/-- Python `str.split(sep)` for a one-character separator: split at every
occurrence; an empty string yields `[""]`. -/
def splitChar (sep : Char) : List Char → List (List Char)
  | [] => [[]]
  | c :: t =>
    if c = sep then [] :: splitChar sep t
    else
      match splitChar sep t with
      | [] => [[c]]
      | h :: r => (c :: h) :: r

def pySplit (s : String) (sep : Char) : List String :=
  (splitChar sep s.data).map (fun l => ⟨l⟩)

/-- Python `c in s` for a character. -/
def pyContains (s : String) (c : Char) : Bool :=
  s.data.contains c

/-- Number of occurrences of a character in a character list. -/
def countCharL (sep : Char) : List Char → Nat
  | [] => 0
  | c :: t => (if c = sep then 1 else 0) + countCharL sep t

/-- `_email_logic` inside `DataMasker.mask_emails`: nulls and values
without `@` pass through; otherwise the code executes
`local, domain = str(val).split('@')` — an unpacking that raises
`ValueError` unless the split has exactly two parts — and then
`local[0]`, which raises `IndexError` when the local part is empty;
otherwise the masked value is `local[0] + "***@" + domain`. -/
def maskEmailValue (v : Option String) : Except PyErr (Option String) :=
  match v with
  | none => .ok none
  | some s =>
    if pyContains s '@' = false then .ok (some s)
    else
      match pySplit s '@' with
      | [l, d] =>
        if l.data.isEmpty then .error .indexError
        else .ok (some ((⟨l.data.take 1⟩ : String) ++ "***@" ++ d))
      | _ => .error .valueError

/-- The regex test `re.match(r'^\d{3}-\d{3}-\d{4}$', val_str)` of
`_phone_logic` inside `DataMasker.mask_phones`: twelve characters shaped
digit-digit-digit, dash, digit-digit-digit, dash, digit-digit-digit-digit. -/
def canonicalPhone (s : String) : Bool :=
  match s.data with
  | [a, b, c, d1, d, e, f, d2, g, h, i, j] =>
    a.isDigit && b.isDigit && c.isDigit && (d1 == '-')
      && d.isDigit && e.isDigit && f.isDigit && (d2 == '-')
      && g.isDigit && h.isDigit && i.isDigit && j.isDigit
  | _ => false

/-- Python `val_str[-4:]`: the last four characters (the whole string when
shorter). -/
def takeLast4 (s : String) : String :=
  ⟨s.data.drop (s.data.length - 4)⟩

/-- `_phone_logic`: a value in canonical `DDD-DDD-DDDD` form is masked to
`***-***-` plus its last four digits; everything else — nulls included,
since `str(nan)` is `"nan"` — collapses to the literal fallback
`***-***-****`. -/
def maskPhoneValue (v : Option String) : String :=
  if canonicalPhone (pyStr v) then "***-***-" ++ takeLast4 (pyStr v)
  else "***-***-****"

/-- The spec-side reading of "exactly matches `DDD-DDD-DDDD`": three
digits, a dash, three digits, a dash, four digits, and nothing else. -/
def isCanonicalSpec (s : String) : Prop :=
  ∃ p q r : List Char,
    p.length = 3 ∧ q.length = 3 ∧ r.length = 4
    ∧ (∀ c ∈ p, c.isDigit = true) ∧ (∀ c ∈ q, c.isDigit = true)
    ∧ (∀ c ∈ r, c.isDigit = true)
    ∧ s.data = p ++ '-' :: q ++ '-' :: r

/-! Remaining per-cell maskers of `DataMasker`. -/

/-- `mask_names` cell logic: non-null values other than the placeholder
`[UNKNOWN]` become their first character plus `***`. -/
def maskNameValue : Option String → Option String
  | none => none
  | some s => if s = "[UNKNOWN]" then some s else some ((⟨s.data.take 1⟩ : String) ++ "***")

/-- `mask_dob` cell logic: non-null values of at least four characters
become their first four characters plus `-**-**`. -/
def maskDobValue : Option String → Option String
  | none => none
  | some s =>
    if 4 ≤ s.data.length then some ((⟨s.data.take 4⟩ : String) ++ "-**-**") else some s

def maskNamesT (t : Table) : Table :=
  t.map (fun r =>
    { r with first_name := maskNameValue r.first_name
             last_name := maskNameValue r.last_name })

def maskPhonesT (t : Table) : Table :=
  t.map (fun r => { r with phone := some (maskPhoneValue r.phone) })

/-- `mask_addresses`: `self.df['address'] = '[MASKED ADDRESS]'`. -/
def maskAddressesT (t : Table) : Table :=
  t.map (fun r => { r with address := some "[MASKED ADDRESS]" })

def maskDobT (t : Table) : Table :=
  t.map (fun r => { r with date_of_birth := maskDobValue r.date_of_birth })

/-- Equality of `Except` results is decidable when both components are. -/
instance exceptDecEq {ε α : Type} [DecidableEq ε] [DecidableEq α] :
    DecidableEq (Except ε α) := fun a b =>
  match a, b with
  | .ok x, .ok y =>
    if h : x = y then .isTrue (by rw [h])
    else .isFalse (by intro hc; injection hc; contradiction)
  | .error x, .error y =>
    if h : x = y then .isTrue (by rw [h])
    else .isFalse (by intro hc; injection hc; contradiction)
  | .ok _, .error _ => .isFalse (by intro hc; cases hc)
  | .error _, .ok _ => .isFalse (by intro hc; cases hc)

/-- A pandas `apply` whose cell function can raise: the first raising cell
aborts the whole operation (the exception propagates). -/
def mapRowsE (f : Row → Except PyErr Row) : Table → Except PyErr Table
  | [] => .ok []
  | r :: t =>
    match f r with
    | .error e => .error e
    | .ok r' =>
      match mapRowsE f t with
      | .error e => .error e
      | .ok t' => .ok (r' :: t')

def maskEmailsT (t : Table) : Except PyErr Table :=
  mapRowsE (fun r => (maskEmailValue r.email).map (fun e => { r with email := e })) t

/-- The five masking operations of `DataMasker`. -/
inductive MaskOp where
  | names
  | emails
  | phones
  | addresses
  | dob
deriving DecidableEq, Repr

def applyMaskOp : MaskOp → Table → Except PyErr Table
  | .names, t => .ok (maskNamesT t)
  | .emails, t => maskEmailsT t
  | .phones, t => .ok (maskPhonesT t)
  | .addresses, t => .ok (maskAddressesT t)
  | .dob, t => .ok (maskDobT t)

/-- The caller's table together with the masker's owned frame.  Masking
operations assign only to `self.df`, never to the caller's table. -/
structure MaskWorld where
  source : Table
  masker : Table
deriving DecidableEq, Repr

/-- `DataMasker.__init__`: `self.df = df.copy()` — the masker starts from
a value copy of the source. -/
def DataMasker.initWorld (src : Table) : MaskWorld :=
  ⟨src, src⟩

/-- One fluent call: the operation reads and replaces only the masker's
own frame; the caller's table is untouched. -/
def maskStep (op : MaskOp) (w : MaskWorld) : Except PyErr MaskWorld :=
  match applyMaskOp op w.masker with
  | .error e => .error e
  | .ok df => .ok ⟨w.source, df⟩

def runMaskOps : List MaskOp → MaskWorld → Except PyErr MaskWorld
  | [], w => .ok w
  | op :: ops, w =>
    match maskStep op w with
    | .error e => .error e
    | .ok w' => runMaskOps ops w'

/-- The fluent chain of `main.py` stage 7:
`mask_names().mask_emails().mask_phones().mask_addresses().mask_dob()`. -/
def allMaskOps : List MaskOp :=
  [MaskOp.names, MaskOp.emails, MaskOp.phones, MaskOp.addresses, MaskOp.dob]

/-- A fully clean one-row table in the shape `clean_df` has after
remediation. -/
def sampleCleanTable : Table :=
  [{ customer_id := some 1
     first_name := some "John"
     last_name := some "Doe"
     email := some "john.doe@gmail.com"
     phone := some "555-123-4567"
     address := some "123 Main St New York NY 10001"
     date_of_birth := some "1985-03-15"
     created_date := some "2024-01-10"
     income := some 75000
     account_status := some "active" }]

/-- The row of `sampleCleanTable` after all five masking operations. -/
def sampleMaskedRow : Row :=
  { customer_id := some 1
    first_name := some "J***"
    last_name := some "D***"
    email := some "j***@gmail.com"
    phone := some "***-***-4567"
    address := some "[MASKED ADDRESS]"
    date_of_birth := some "1985-**-**"
    created_date := some "2024-01-10"
    income := some 75000
    account_status := some "active" }

def sampleMaskedWorld : MaskWorld :=
  ⟨sampleCleanTable, [sampleMaskedRow]⟩

/-! ## Validator report (`src/part3/data_validator.py`)

`_generate_custom_report` consumes one result per expectation: a success
flag, the expectation's column, the 0-based `unexpected_index_list` and
the literal `partial_unexpected_list`. -/

structure GXResult where
  success : Bool
  column : String
  unexpectedIndexList : List Nat
  partialUnexpectedList : List String
deriving DecidableEq, Repr

/-- `human_indices = [idx + 1 for idx in indices]` — 1-based rows. -/
def humanIndices (r : GXResult) : List Nat :=
  r.unexpectedIndexList.map (· + 1)

/-- The per-expectation block of the report: the column, the displayed
failed rows `human_indices[:10]`, and the sample values
`bad_values[:3]`. -/
structure FailureEntry where
  column : String
  displayedRows : List Nat
  sampleValues : List String
deriving DecidableEq, Repr

def failureEntry (r : GXResult) : FailureEntry :=
  ⟨r.column, (humanIndices r).take 10, r.partialUnexpectedList.take 3⟩

def failureEntries (results : List GXResult) : List FailureEntry :=
  (results.filter (fun r => !r.success)).map failureEntry

/-- `failed_indices`: the set accumulated by
`failed_indices.update(human_indices)` over every failing expectation —
note the update takes the full `human_indices`, not the `[:10]` display
sample. -/
def failedIndexSet (results : List GXResult) : Finset Nat :=
  results.foldl
    (fun acc r => if r.success then acc else acc ∪ (humanIndices r).toFinset) ∅

/-- The "IMPACT: n distinct rows failed at least one check" statistic:
`len(failed_indices)`. -/
def impactCount (results : List GXResult) : Nat :=
  (failedIndexSet results).card

/-- A concrete result list: one failing expectation with eleven bad rows,
one passing expectation, and one failing expectation overlapping row 1. -/
def sampleGXResults : List GXResult :=
  [⟨false, "income", [0, 1, 2, 3, 4, 5, 6, 7, 8, 9, 10], ["-5", "x", "nan", "1e99"]⟩,
   ⟨true, "customer_id", [], []⟩,
   ⟨false, "account_status", [0, 20], ["pending"]⟩]

/-! ## Profiler failure modes (`src/part1/dataprofiler.py`)

`load_data` raises `FileNotFoundError` when the path does not exist, and
otherwise loads the parsed table; the file system is abstracted as the
optional parse result at the profiler's input path. -/

def loadData (file : Option Table) : Except PyErr Table :=
  match file with
  | none => .error .fileNotFound
  | some t => .ok t

/-- `run_full_analysis`: loads the frame when none is loaded yet, runs the
analysis passes, and — in the `except` clause — logs any exception and
re-raises it unchanged (`raise`). -/
def runFullAnalysis (analyze : Table → Except PyErr (List String))
    (file : Option Table) (preloaded : Option Table) : Except PyErr (List String) :=
  let attempt : Except PyErr (List String) :=
    match (match preloaded with | some df => Except.ok df | none => loadData file) with
    | .ok df => analyze df
    | .error e => .error e
  match attempt with
  | .ok report => .ok report
  | .error e => .error e

/-! ## Orchestrator stage 3 (`main.py`) and the Remediator interface

The attribute set of the `DataRemediator` class body, and the keys of the
`log_stats` dictionary built in `__init__`. -/

def remediatorAttrs : List String :=
  ["__init__", "df", "log_stats", "normalize_names", "normalize_phones",
   "normalize_dates", "handle_missing", "generate_log"]

/-- The four column transforms among the remediator's methods. -/
def remediatorTransforms : List String :=
  ["normalize_names", "normalize_phones", "normalize_dates", "handle_missing"]

def statsKeys : List String :=
  ["phone_fixes", "date_fixes", "name_fixes", "missing_fills"]

/-- Python attribute lookup on a `DataRemediator` instance. -/
def hasAttrRem (name : String) : Bool :=
  remediatorAttrs.contains name

/-- Stage 3 of `FintechPipeline.run`:
`remediator.normalize_names().normalize_emails().normalize_phones()...`.
The first call succeeds; the chained `.normalize_emails` attribute lookup
is then performed on the result.  The success branch is unreachable: the
class defines no `normalize_emails`. -/
def mainCleanChain (t : Table) : Except PyErr DataRemediator :=
  let r1 := normalizeNames (DataRemediator.init t)
  if hasAttrRem "normalize_emails" then .ok r1
  else .error (.attributeError "normalize_emails")

end Pipeline

open Pipeline

/-- C1: phone normalization on the already-canonical value
`"555-123-4567"` leaves the value unchanged (value-level idempotence
holds) but the code nevertheless increments `phone_fixes` to 1, because
`format_phone` counts a fix whenever 10 digits remain — including when the
input was already in `DDD-DDD-DDDD` form — contradicting the claim (and
the code's own comment) that a fix is counted only when the format
changed. -/
theorem c1_phone_counter_bug :
    (normalizePhones (DataRemediator.init (phoneRowTable (some "555-123-4567")))).df
      = phoneRowTable (some "555-123-4567")
    ∧ (normalizePhones (DataRemediator.init (phoneRowTable (some "555-123-4567")))).log_stats.phone_fixes
      = 1
    ∧ (normalizePhones (DataRemediator.init (phoneRowTable (some "55-123-4567")))).df
      = phoneRowTable (some "55-123-4567") := by
  refine ⟨?_, ?_, ?_⟩ <;> decide

/-- C2: name normalization does not leave nulls untouched: a null
`first_name` is string-cast to `"nan"`, title-cased to `"Nan"`, and
counted as a name fix (the pandas `!=` between the null and `"Nan"` is
true), contradicting the claim that nulls are untouched and never
contribute to the counter.  The non-null `last_name` `"Doe"` is unchanged
and uncounted. -/
theorem c2_name_null_bug :
    (normalizeNames (DataRemediator.init (nameRowTable none (some "Doe")))).df
      = nameRowTable (some "Nan") (some "Doe")
    ∧ (normalizeNames (DataRemediator.init (nameRowTable none (some "Doe")))).log_stats.name_fixes
      = 1 := by
  constructor <;> decide

namespace Pipeline

/-- Counting two pointwise-incompatible predicates never exceeds the list
length. -/
theorem countP_disjoint_le (p q : Cell → Bool) (l : List Cell)
    (h : ∀ a, ¬(p a = true ∧ q a = true)) :
    l.countP p + l.countP q ≤ l.length := by
  induction l with
  | nil => simp
  | cons a t ih =>
    have := h a
    by_cases hp : p a = true <;> by_cases hq : q a = true <;>
      simp_all [List.countP_cons] <;> omega

/-- A missing cell is never also counted by the sentinel scan (the string
cast of a null is `"nan"`), so the combined missing count is bounded by
the number of rows. -/
theorem missingCount_le (isObj : Bool) (cells : List Cell) :
    missingCount isObj cells ≤ cells.length := by
  rcases isObj with _ | _
  · simpa [missingCount, nullCount] using List.countP_le_length _
  · simp only [missingCount, if_pos rfl]
    refine countP_disjoint_le _ _ _ ?_
    rintro (_ | s | n) ⟨h1, h2⟩ <;> simp_all [cellIsNa, pyStrCell, pyLower, hasSub] <;>
      revert h2 <;> decide

/-- `roundHEdivNat m d` is a nearest-integer rounding of `m * 100 / d`:
twice its distance (in either direction, with truncated subtraction) to
the exact value stays within the denominator. -/
theorem roundHEdivNat_nearest (m d : Nat) (h : 0 < d) :
    2 * (roundHEdivNat m d * d - m * 100) ≤ d
    ∧ 2 * (m * 100 - roundHEdivNat m d * d) ≤ d := by
  have hdm := Nat.div_add_mod (m * 100) d
  have hrd := Nat.mod_lt (m * 100) h
  have e1 : m * 100 / d * d = d * (m * 100 / d) := Nat.mul_comm _ _
  have e2 : (m * 100 / d + 1) * d = d * (m * 100 / d) + d := by
    rw [Nat.add_mul, Nat.one_mul, e1]
  unfold roundHEdivNat
  split_ifs with h1 h2 h3 <;> constructor <;> omega

end Pipeline

open Pipeline in
/-- C3 (amended): for every column of a non-empty table, the completeness
entry is the percentage `(total_rows - missing_count) / total_rows`
rendered to the nearest whole percent (the conjuncts bound twice the
distance between the reported percent and the exact ratio by the
denominator), where a value is missing if it is null or, on string
(`object`) columns, its lowercase string form contains `"invalid_date"`;
but when `total_rows = 0` the division is NOT guarded in the source, so
no well-defined percentage is produced (the entry is undefined). -/
theorem c3_completeness_amended (isObj : Bool) (cells : List Cell) :
    (cells.length ≠ 0 →
      completenessPercent isObj cells
          = some (roundHEdivNat (cells.length - missingCount isObj cells) cells.length)
        ∧ 2 * (roundHEdivNat (cells.length - missingCount isObj cells) cells.length * cells.length
              - (cells.length - missingCount isObj cells) * 100) ≤ cells.length
        ∧ 2 * ((cells.length - missingCount isObj cells) * 100
              - roundHEdivNat (cells.length - missingCount isObj cells) cells.length * cells.length)
            ≤ cells.length
        ∧ missingCount isObj cells ≤ cells.length)
    ∧ (cells.length = 0 → completenessPercent isObj cells = none) := by
  constructor
  · intro h
    have hd : 0 < cells.length := Nat.pos_of_ne_zero h
    obtain ⟨h1, h2⟩ :=
      roundHEdivNat_nearest (cells.length - missingCount isObj cells) cells.length hd
    exact ⟨by simp [completenessPercent, h], h1, h2, missingCount_le _ _⟩
  · intro h
    simp [completenessPercent, h]

open Pipeline in
/-- C3 counterexample: on a table with zero rows the completeness
analysis does not produce any guarded percentage — the unguarded
`(total_rows - total_missing) / total_rows` has no defined value, refuting
the claim that the division is guarded at `total_rows == 0`. -/
theorem c3_zero_rows_unguarded :
    completenessPercent true ([] : List Cell) = none := rfl

open Pipeline in
/-- C3 witness: a concrete 4-row string column with one null and one
sentinel string has completeness 50%. -/
theorem c3_completeness_witness :
    completenessPercent true
      [Cell.null, Cell.str "invalid_date", Cell.str "alpha", Cell.str "beta"] = some 50 := by
  have h := (c3_completeness_amended true
      [Cell.null, Cell.str "invalid_date", Cell.str "alpha", Cell.str "beta"]).1 (by decide)
  rw [h.1]
  decide

open Pipeline in
/-- C4 (amended): `DataProfiler._check_data_types` flags `date_of_birth`
as "should be DATE" exactly when some value in that column contains a `/`
or the substring `invalid`, but it NEVER emits the corresponding
`created_date` flag; only the standalone script
`Part 1/quality_analysis.py` additionally flags `created_date` under the
same condition on that column. -/
theorem c4_date_flags_amended (incomeIsObject : Bool) (t : Table) :
    (dobFlagLine ∈ checkDataTypes incomeIsObject t
        ↔ t.any (fun r => slashOrInvalid r.date_of_birth) = true)
    ∧ createdFlagLine ∉ checkDataTypes incomeIsObject t
    ∧ (createdFlagLine ∈ qaCheckDataTypes incomeIsObject t
        ↔ t.any (fun r => slashOrInvalid r.created_date) = true) := by
  have key1 : ∀ b1 b2 : Bool,
      dobFlagLine ∈ ["\nDATA TYPES:"] ++ baselineTypeLines
          ++ (if b1 then [dobFlagLine] else []) ++ (if b2 then [incomeFlagLine] else [])
        ↔ b1 = true := by decide
  have key2 : ∀ b1 b2 : Bool,
      createdFlagLine ∉ ["\nDATA TYPES:"] ++ baselineTypeLines
          ++ (if b1 then [dobFlagLine] else []) ++ (if b2 then [incomeFlagLine] else []) := by
    decide
  have key3 : ∀ b1 b2 b3 : Bool,
      createdFlagLine ∈ ["\nDATA TYPES:"] ++ qaBaselineTypeLines
          ++ (if b1 then [dobFlagLine] else []) ++ (if b2 then [incomeFlagLine] else [])
          ++ (if b3 then [createdFlagLine] else [])
        ↔ b3 = true := by decide
  refine ⟨?_, ?_, ?_⟩
  · simpa [checkDataTypes] using
      key1 (t.any fun r => slashOrInvalid r.date_of_birth)
        (incomeIsObject || t.any fun r => r.income.isNone)
  · simpa [checkDataTypes] using
      key2 (t.any fun r => slashOrInvalid r.date_of_birth)
        (incomeIsObject || t.any fun r => r.income.isNone)
  · simpa [qaCheckDataTypes] using
      key3 (t.any fun r => slashOrInvalid r.date_of_birth)
        (incomeIsObject || t.any fun r => r.income.isNone)
        (t.any fun r => slashOrInvalid r.created_date)

open Pipeline in
/-- C4 counterexample: a table whose only slash-separated date is in
`created_date` does NOT get the `created_date` flag from the Profiler's
type-conformance analysis, refuting the claim that both date columns are
flagged. -/
theorem c4_created_date_not_flagged :
    createdFlagLine ∉ checkDataTypes false
      [{ blankRow with date_of_birth := some "1985-03-15"
                       created_date := some "2024/01/01"
                       income := some 1000 }] := by
  decide

open Pipeline in
/-- C4 witness: the Profiler does flag `date_of_birth` on a slash date,
and the standalone script does flag `created_date` on a slash date. -/
theorem c4_date_flags_witness :
    dobFlagLine ∈ checkDataTypes false
      [{ blankRow with date_of_birth := some "1975/05/10", income := some 1 }]
    ∧ createdFlagLine ∈ qaCheckDataTypes false
      [{ blankRow with created_date := some "01/15/2024", income := some 1 }] := by
  constructor
  · exact ((c4_date_flags_amended false _).1).mpr (by decide)
  · exact ((c4_date_flags_amended false _).2.2).mpr (by decide)

namespace Pipeline

/-- `str.split` always returns at least one part. -/
theorem splitChar_ne_nil (sep : Char) (l : List Char) : splitChar sep l ≠ [] := by
  cases l with
  | nil => simp [splitChar]
  | cons c t =>
    by_cases h : c = sep
    · simp [splitChar, h]
    · cases hs : splitChar sep t <;> simp [splitChar, h, hs]

/-- The number of parts of `str.split(sep)` is one more than the number of
separator occurrences. -/
theorem splitChar_length (sep : Char) (l : List Char) :
    (splitChar sep l).length = countCharL sep l + 1 := by
  induction l with
  | nil => simp [splitChar, countCharL]
  | cons c t ih =>
    by_cases h : c = sep
    · subst h
      simp [splitChar, countCharL, ih]
      omega
    · cases hs : splitChar sep t with
      | nil => exact absurd hs (splitChar_ne_nil sep t)
      | cons hd tl =>
        rw [hs] at ih
        simp only [List.length_cons] at ih
        simp [splitChar, h, hs, countCharL]
        omega

/-- With no separator present the split is the whole string. -/
theorem splitChar_count_zero (sep : Char) (l : List Char)
    (h : countCharL sep l = 0) : splitChar sep l = [l] := by
  induction l with
  | nil => simp [splitChar]
  | cons c t ih =>
    by_cases hc : c = sep
    · simp [countCharL, hc] at h
    · have ht : countCharL sep t = 0 := by
        simpa [countCharL, hc] using h
      simp [splitChar, hc, ih ht]

/-- With exactly one separator occurrence the split is the pair of the
part before the first separator and the part after it. -/
theorem splitChar_count_one (sep : Char) (l : List Char)
    (h : countCharL sep l = 1) :
    splitChar sep l
      = [l.takeWhile (fun c => c != sep), (l.dropWhile (fun c => c != sep)).drop 1] := by
  induction l with
  | nil => simp [countCharL] at h
  | cons c t ih =>
    by_cases hc : c = sep
    · have ht : countCharL sep t = 0 := by
        simpa [countCharL, hc] using h
      have hbne : (c != sep) = false := by simp [hc]
      simp [splitChar, hc, splitChar_count_zero sep t ht, List.takeWhile_cons,
        List.dropWhile_cons, hbne]
    · have ht : countCharL sep t = 1 := by
        simpa [countCharL, hc] using h
      have hbne : (c != sep) = true := by simp [hc]
      have e := ih ht
      cases hs : splitChar sep t with
      | nil => exact absurd hs (splitChar_ne_nil sep t)
      | cons hd tl =>
        rw [hs] at e
        injection e with e1 e2
        subst e1
        subst e2
        simp [splitChar, hc, hs, hbne, List.takeWhile_cons, List.dropWhile_cons]

/-- Membership of a character matches a positive occurrence count. -/
theorem contains_iff_countCharL (sep : Char) (l : List Char) :
    l.contains sep = true ↔ 0 < countCharL sep l := by
  induction l with
  | nil => simp [countCharL]
  | cons c t ih =>
    by_cases h : c = sep
    · simp [countCharL, h, ih, List.contains_cons]
    · have h' : ¬ sep = c := fun hh => h hh.symm
      have ih' : sep ∈ t ↔ 0 < countCharL sep t := by simpa using ih
      simp [countCharL, h, h', ih', List.contains_cons]

end Pipeline

open Pipeline in
/-- C5 (amended): `mask_emails` passes nulls and `@`-free values through
unchanged; on a value with exactly one `@` and a non-empty local part it
returns the first character of the local part, `"***@"`, and the domain
(equivalently: splitting at the first `@`); but a value with two or more
`@` characters raises `ValueError` (tuple unpacking of the split), and a
value with exactly one `@` and an empty local part raises `IndexError`
(`local[0]`), rather than being handled. -/
theorem c5_mask_email_amended (v : Option String) :
    (v = none → maskEmailValue v = .ok none)
    ∧ (∀ s, v = some s → countCharL '@' s.data = 0 → maskEmailValue v = .ok (some s))
    ∧ (∀ s, v = some s → countCharL '@' s.data = 1 →
        s.data.takeWhile (fun c => c != '@') ≠ [] →
        maskEmailValue v
          = .ok (some ((⟨(s.data.takeWhile (fun c => c != '@')).take 1⟩ : String)
              ++ "***@" ++ (⟨(s.data.dropWhile (fun c => c != '@')).drop 1⟩ : String))))
    ∧ (∀ s, v = some s → countCharL '@' s.data = 1 →
        s.data.takeWhile (fun c => c != '@') = [] →
        maskEmailValue v = .error .indexError)
    ∧ (∀ s, v = some s → 2 ≤ countCharL '@' s.data →
        maskEmailValue v = .error .valueError) := by
  refine ⟨?_, ?_, ?_, ?_, ?_⟩
  · rintro rfl; rfl
  · rintro s rfl h0
    have hc : pyContains s '@' = false := by
      rw [pyContains]
      rcases hb : s.data.contains '@'
      · rfl
      · exact absurd ((contains_iff_countCharL '@' s.data).mp hb) (by omega)
    simp [maskEmailValue, hc]
  · rintro s rfl h1 hne
    have hc : pyContains s '@' = true := by
      rw [pyContains]
      exact (contains_iff_countCharL '@' s.data).mpr (by omega)
    have hs := splitChar_count_one '@' s.data h1
    simp [maskEmailValue, hc, pySplit, hs, hne]
  · rintro s rfl h1 hemp
    have hc : pyContains s '@' = true := by
      rw [pyContains]
      exact (contains_iff_countCharL '@' s.data).mpr (by omega)
    have hs := splitChar_count_one '@' s.data h1
    simp [maskEmailValue, hc, pySplit, hs, hemp]
  · rintro s rfl h2
    have hc : pyContains s '@' = true := by
      rw [pyContains]
      exact (contains_iff_countCharL '@' s.data).mpr (by omega)
    have hlen : (pySplit s '@').length = countCharL '@' s.data + 1 := by
      simpa [pySplit] using splitChar_length '@' s.data
    rcases hp : pySplit s '@' with _ | ⟨a, _ | ⟨b, _ | ⟨c, r⟩⟩⟩ <;>
      rw [hp] at hlen <;> simp at hlen <;> try omega
    simp [maskEmailValue, hc, hp]

open Pipeline in
/-- C5 counterexample: a value with two `@` characters makes `mask_emails`
raise `ValueError` instead of masking it, and a value with an empty local
part raises `IndexError` — refuting the claim that such values are still
handled by the first-`@` rule rather than causing a failure. -/
theorem c5_mask_email_failures :
    maskEmailValue (some "a@b@c") = .error PyErr.valueError
    ∧ maskEmailValue (some "@gmail.com") = .error PyErr.indexError := by
  exact ⟨rfl, rfl⟩

open Pipeline in
/-- C5 witness: a well-formed email is masked to first character plus
`***@` plus domain. -/
theorem c5_mask_email_witness :
    maskEmailValue (some "jane@x.com") = .ok (some "j***@x.com") := by
  have h := (c5_mask_email_amended (some "jane@x.com")).2.2.1 "jane@x.com" rfl
    (by decide) (by decide)
  rw [h]
  rfl

namespace Pipeline

/-- The code's regex test agrees with the spec's reading of "exactly
matches `DDD-DDD-DDDD`". -/
theorem canonicalPhone_iff_spec (s : String) :
    canonicalPhone s = true ↔ isCanonicalSpec s := by
  constructor
  · intro h
    unfold canonicalPhone at h
    split at h
    case _ a b c d1 d e f d2 g h2 i j heq =>
      simp only [Bool.and_eq_true, beq_iff_eq, and_assoc] at h
      obtain ⟨ha, hb, hc', hd1, hd, he, hf, hd2, hg, hh, hi, hj⟩ := h
      subst hd1
      subst hd2
      refine ⟨[a, b, c], [d, e, f], [g, h2, i, j], rfl, rfl, rfl, ?_, ?_, ?_, ?_⟩
      · intro x hx
        simp only [List.mem_cons, List.not_mem_nil, or_false] at hx
        rcases hx with rfl | rfl | rfl <;> assumption
      · intro x hx
        simp only [List.mem_cons, List.not_mem_nil, or_false] at hx
        rcases hx with rfl | rfl | rfl <;> assumption
      · intro x hx
        simp only [List.mem_cons, List.not_mem_nil, or_false] at hx
        rcases hx with rfl | rfl | rfl | rfl <;> assumption
      · rw [heq]
        rfl
    case _ => exact absurd h (by simp)
  · rintro ⟨p, q, r, hp, hq, hr, hdp, hdq, hdr, hs⟩
    obtain ⟨p1, p2, p3, rfl⟩ := List.length_eq_three.mp hp
    obtain ⟨q1, q2, q3, rfl⟩ := List.length_eq_three.mp hq
    rcases r with _ | ⟨r1, r'⟩
    · simp at hr
    · have hr' : r'.length = 3 := by simpa using hr
      obtain ⟨r2, r3, r4, rfl⟩ := List.length_eq_three.mp hr'
      simp only [List.cons_append, List.nil_append] at hs
      have e1 := hdp p1 (by simp)
      have e2 := hdp p2 (by simp)
      have e3 := hdp p3 (by simp)
      have e4 := hdq q1 (by simp)
      have e5 := hdq q2 (by simp)
      have e6 := hdq q3 (by simp)
      have e7 := hdr r1 (by simp)
      have e8 := hdr r2 (by simp)
      have e9 := hdr r3 (by simp)
      have e10 := hdr r4 (by simp)
      unfold canonicalPhone
      rw [hs]
      simp [e1, e2, e3, e4, e5, e6, e7, e8, e9, e10]

end Pipeline

open Pipeline in
/-- C6: `mask_phones` outputs `***-***-` followed by the last four digits
exactly when the value exactly matches `DDD-DDD-DDDD`; every other value
— nulls included — is collapsed to the literal fallback `***-***-****`;
and the scenario holds: `"(555) 234-5678"` is remediated to
`"555-234-5678"` and then masked to `"***-***-5678"`. -/
theorem c6_mask_phone (v : Option String) :
    (∀ s, v = some s → isCanonicalSpec s →
        maskPhoneValue v = "***-***-" ++ takeLast4 s)
    ∧ (v = none → maskPhoneValue v = "***-***-****")
    ∧ (∀ s, v = some s → ¬ isCanonicalSpec s → maskPhoneValue v = "***-***-****")
    ∧ ((formatPhone (some "(555) 234-5678")).1 = some "555-234-5678"
        ∧ maskPhoneValue (some "555-234-5678") = "***-***-5678") := by
  refine ⟨?_, ?_, ?_, by decide, by decide⟩
  · rintro s rfl hspec
    have hc : canonicalPhone s = true := (canonicalPhone_iff_spec s).mpr hspec
    simp [maskPhoneValue, pyStr, hc]
  · rintro rfl
    rfl
  · rintro s rfl hspec
    have hc : canonicalPhone s = false := by
      rcases hb : canonicalPhone s
      · rfl
      · exact absurd ((canonicalPhone_iff_spec s).mp hb) hspec
    simp [maskPhoneValue, pyStr, hc]

open Pipeline in
/-- C6 witness: the canonical value `"555-123-4567"` is masked to
`"***-***-4567"`. -/
theorem c6_mask_phone_witness :
    maskPhoneValue (some "555-123-4567") = "***-***-4567" := by
  have h := (c6_mask_phone (some "555-123-4567")).1 "555-123-4567" rfl
    ⟨['5', '5', '5'], ['1', '2', '3'], ['4', '5', '6', '7'], rfl, rfl, rfl,
      by decide, by decide, by decide, by decide⟩
  rw [h]
  decide

namespace Pipeline

/-- Membership in the fold that accumulates `failed_indices`. -/
theorem mem_failedFold (results : List GXResult) (acc : Finset Nat) (n : Nat) :
    n ∈ results.foldl
        (fun acc r => if r.success then acc else acc ∪ (humanIndices r).toFinset) acc
      ↔ n ∈ acc ∨ ∃ r ∈ results, r.success = false ∧ n ∈ humanIndices r := by
  induction results generalizing acc with
  | nil => simp
  | cons r t ih =>
    simp only [List.foldl_cons]
    rw [ih]
    by_cases h : r.success = true
    · simp only [h, if_pos rfl]
      constructor
      · rintro (ha | ⟨x, hx, hs, hn⟩)
        · exact Or.inl ha
        · exact Or.inr ⟨x, List.mem_cons_of_mem _ hx, hs, hn⟩
      · rintro (ha | ⟨x, hx, hs, hn⟩)
        · exact Or.inl ha
        · rcases List.mem_cons.mp hx with rfl | hx'
          · rw [h] at hs; cases hs
          · exact Or.inr ⟨x, hx', hs, hn⟩
    · simp only [if_neg h]
      constructor
      · rintro (h2 | ⟨x, hx, hs, hn⟩)
        · rcases Finset.mem_union.mp h2 with ha | hm
          · exact Or.inl ha
          · exact Or.inr ⟨r, List.mem_cons_self _ _, by simpa using h,
              List.mem_toFinset.mp hm⟩
        · exact Or.inr ⟨x, List.mem_cons_of_mem _ hx, hs, hn⟩
      · rintro (ha | ⟨x, hx, hs, hn⟩)
        · exact Or.inl (Finset.mem_union_left _ ha)
        · rcases List.mem_cons.mp hx with rfl | hx'
          · exact Or.inl (Finset.mem_union_right _ (List.mem_toFinset.mpr hn))
          · exact Or.inr ⟨x, hx', hs, hn⟩

end Pipeline

open Pipeline in
/-- C7: for each failing expectation the report entry holds the 1-based
row numbers (each displayed row is some 0-based position plus one), the
displayed rows are capped at 10 and the literal sample values at 3; the
impact statistic is the cardinality of the distinct union of 1-based rows
over all failing expectations — membership in that union is exactly
"failed at least one expectation", with no display-cap truncation
(conversely, any single expectation's distinct failed-row count never
exceeds the impact). -/
theorem c7_validator_report (results : List GXResult) :
    (∀ r, r ∈ results → r.success = false →
        failureEntry r ∈ failureEntries results
        ∧ (failureEntry r).displayedRows.length ≤ 10
        ∧ (failureEntry r).sampleValues.length ≤ 3
        ∧ ∀ n ∈ (failureEntry r).displayedRows, ∃ i ∈ r.unexpectedIndexList, n = i + 1)
    ∧ (∀ n, n ∈ failedIndexSet results
        ↔ ∃ r ∈ results, r.success = false ∧ ∃ i ∈ r.unexpectedIndexList, n = i + 1)
    ∧ impactCount results = (failedIndexSet results).card
    ∧ (∀ r, r ∈ results → r.success = false →
        (humanIndices r).toFinset.card ≤ impactCount results) := by
  refine ⟨?_, ?_, rfl, ?_⟩
  · intro r hr hs
    refine ⟨?_, ?_, ?_, ?_⟩
    · exact List.mem_map_of_mem _ (List.mem_filter.mpr ⟨hr, by simp [hs]⟩)
    · exact List.length_take_le 10 (humanIndices r)
    · exact List.length_take_le 3 r.partialUnexpectedList
    · intro n hn
      have hn' : n ∈ humanIndices r :=
        List.take_subset 10 (humanIndices r) hn
      obtain ⟨i, hi, hie⟩ := List.mem_map.mp hn'
      exact ⟨i, hi, hie.symm⟩
  · intro n
    rw [failedIndexSet, mem_failedFold]
    simp only [Finset.not_mem_empty, false_or]
    constructor
    · rintro ⟨r, hr, hs, hn⟩
      obtain ⟨i, hi, hie⟩ := List.mem_map.mp hn
      exact ⟨r, hr, hs, i, hi, hie.symm⟩
    · rintro ⟨r, hr, hs, i, hi, hie⟩
      exact ⟨r, hr, hs, List.mem_map.mpr ⟨i, hi, hie.symm⟩⟩
  · intro r hr hs
    refine Finset.card_le_card ?_
    intro x hx
    rw [failedIndexSet, mem_failedFold]
    exact Or.inr ⟨r, hr, hs, List.mem_toFinset.mp hx⟩

open Pipeline in
/-- C7 witness: in the concrete result list, row 11 (0-based position 10,
beyond the 10-row display cap of its expectation) and row 21 are both in
the distinct failed-row union; the first entry displays only 10 rows and
3 sample values; and the impact counts 12 distinct rows while the
failure-count sum over expectations is 13. -/
theorem c7_validator_report_witness :
    11 ∈ failedIndexSet sampleGXResults
    ∧ 21 ∈ failedIndexSet sampleGXResults
    ∧ (failureEntry ⟨false, "income", [0, 1, 2, 3, 4, 5, 6, 7, 8, 9, 10],
        ["-5", "x", "nan", "1e99"]⟩).displayedRows.length ≤ 10
    ∧ impactCount sampleGXResults = 12 := by
  refine ⟨?_, ?_, ?_, by decide⟩
  · exact ((c7_validator_report sampleGXResults).2.1 11).mpr
      ⟨⟨false, "income", [0, 1, 2, 3, 4, 5, 6, 7, 8, 9, 10], ["-5", "x", "nan", "1e99"]⟩,
        by decide, rfl, 10, by decide, rfl⟩
  · exact ((c7_validator_report sampleGXResults).2.1 21).mpr
      ⟨⟨false, "account_status", [0, 20], ["pending"]⟩, by decide, rfl, 20, by decide, rfl⟩
  · exact ((c7_validator_report sampleGXResults).1
      ⟨false, "income", [0, 1, 2, 3, 4, 5, 6, 7, 8, 9, 10], ["-5", "x", "nan", "1e99"]⟩
      (by decide) rfl).2.1

namespace Pipeline

/-- Length preservation of a single masking operation (when it
completes). -/
theorem applyMaskOp_length (op : MaskOp) (t t' : Table)
    (h : applyMaskOp op t = .ok t') : t'.length = t.length := by
  have hmap : ∀ (f : Row → Except PyErr Row) (u u' : Table),
      mapRowsE f u = .ok u' → u'.length = u.length := by
    intro f u
    induction u with
    | nil =>
      intro u' h'
      unfold mapRowsE at h'
      injection h' with e
      rw [← e]
    | cons r t ih =>
      intro u' h'
      unfold mapRowsE at h'
      cases hf : f r with
      | error e => rw [hf] at h'; cases h'
      | ok r' =>
        rw [hf] at h'
        cases hm : mapRowsE f t with
        | error e => rw [hm] at h'; cases h'
        | ok t'' =>
          rw [hm] at h'
          injection h' with e
          rw [← e]
          simp [ih t'' hm]
  cases op with
  | names =>
    injection h with e
    rw [← e]
    simp [maskNamesT, numRows]
  | emails => exact hmap _ t t' h
  | phones =>
    injection h with e
    rw [← e]
    simp [maskPhonesT]
  | addresses =>
    injection h with e
    rw [← e]
    simp [maskAddressesT]
  | dob =>
    injection h with e
    rw [← e]
    simp [maskDobT]

/-- One fluent call keeps the caller's table and the masker frame's row
count. -/
theorem maskStep_frame (op : MaskOp) (w w' : MaskWorld)
    (h : maskStep op w = .ok w') :
    w'.source = w.source ∧ w'.masker.length = w.masker.length := by
  unfold maskStep at h
  cases ha : applyMaskOp op w.masker with
  | error e => rw [ha] at h; cases h
  | ok df =>
    rw [ha] at h
    injection h with e
    rw [← e]
    exact ⟨rfl, applyMaskOp_length op w.masker df ha⟩

end Pipeline

open Pipeline in
/-- C8: a masker built on a source table operates only on its own copy —
after any chain of masking operations that completes, the source table is
unchanged, and the masker's frame has exactly the source's row count and
column count. -/
theorem c8_masker_frame (src : Table) (ops : List MaskOp) (w' : MaskWorld)
    (h : runMaskOps ops (DataMasker.initWorld src) = .ok w') :
    w'.source = src ∧ numRows w'.masker = numRows src
      ∧ numColumns w'.masker = numColumns src := by
  suffices H : ∀ (ops : List MaskOp) (w w' : MaskWorld), runMaskOps ops w = .ok w' →
      w'.source = w.source ∧ w'.masker.length = w.masker.length by
    obtain ⟨h1, h2⟩ := H ops _ w' h
    exact ⟨h1, h2, rfl⟩
  intro ops
  induction ops with
  | nil =>
    intro w w' h'
    unfold runMaskOps at h'
    injection h' with e
    rw [← e]
    exact ⟨rfl, rfl⟩
  | cons op t ih =>
    intro w w' h'
    unfold runMaskOps at h'
    cases hs : maskStep op w with
    | error e => rw [hs] at h'; cases h'
    | ok w1 =>
      rw [hs] at h'
      obtain ⟨e1, e2⟩ := maskStep_frame op w w1 hs
      obtain ⟨f1, f2⟩ := ih w1 w' h'
      exact ⟨f1.trans e1, f2.trans e2⟩

open Pipeline in
/-- C8 witness: running the full masking chain of `main.py` on a concrete
clean table leaves the source table intact and preserves both counts. -/
theorem c8_masker_frame_witness :
    sampleMaskedWorld.source = sampleCleanTable
    ∧ numRows sampleMaskedWorld.masker = numRows sampleCleanTable
    ∧ numColumns sampleMaskedWorld.masker = numColumns sampleCleanTable :=
  c8_masker_frame sampleCleanTable allMaskOps sampleMaskedWorld (by decide)

open Pipeline in
/-- C9: `load_data` raises exactly when the input file is missing (and the
error is the file-not-found error); any exception an analysis pass raises
inside `run_full_analysis` is re-raised to the caller unchanged — both
with a pre-loaded frame and after a successful load — and a successful
run means no step errored (nothing is swallowed). -/
theorem c9_error_propagation :
    (∀ file : Option Table, (∃ e, loadData file = .error e) ↔ file = none)
    ∧ loadData none = .error PyErr.fileNotFound
    ∧ (∀ (analyze : Table → Except PyErr (List String)) (df : Table) (e : PyErr),
        analyze df = .error e → runFullAnalysis analyze none (some df) = .error e)
    ∧ (∀ (analyze : Table → Except PyErr (List String)) (file : Option Table)
        (df : Table) (e : PyErr), loadData file = .ok df → analyze df = .error e →
        runFullAnalysis analyze file none = .error e)
    ∧ (∀ (analyze : Table → Except PyErr (List String)) (file : Option Table)
        (r : List String), runFullAnalysis analyze file none = .ok r →
        ∃ df, loadData file = .ok df ∧ analyze df = .ok r) := by
  refine ⟨?_, rfl, ?_, ?_, ?_⟩
  · intro file
    constructor
    · rintro ⟨e, he⟩
      cases file with
      | none => rfl
      | some t => cases he
    · rintro rfl
      exact ⟨.fileNotFound, rfl⟩
  · intro analyze df e h
    unfold runFullAnalysis
    simp only
    rw [h]
  · intro analyze file df e hl h
    cases file with
    | none => cases hl
    | some t =>
      unfold runFullAnalysis
      injection hl with e'
      subst e'
      simp only [loadData]
      rw [h]
  · intro analyze file r h
    cases file with
    | none =>
      unfold runFullAnalysis at h
      simp only [loadData] at h
      cases h
    | some t =>
      unfold runFullAnalysis at h
      simp only [loadData] at h
      cases ha : analyze t with
      | error e => rw [ha] at h; cases h
      | ok rep =>
        rw [ha] at h
        injection h with e
        subst e
        exact ⟨t, rfl, ha⟩

open Pipeline in
/-- C9 witness: an analysis pass that raises a `ValueError` on a
pre-loaded empty frame propagates that very error out of
`run_full_analysis`. -/
theorem c9_error_propagation_witness :
    runFullAnalysis (fun _ => .error PyErr.valueError) none (some ([] : Table))
      = .error PyErr.valueError :=
  c9_error_propagation.2.2.1 (fun _ => .error PyErr.valueError) ([] : Table)
    PyErr.valueError rfl

open Pipeline in
/-- C10: the remediator's public interface has exactly four transforms and
no email normalization; its statistics have no email-fix counter; so the
orchestrator's chained `.normalize_emails()` call fails with an
`AttributeError` for every input table, instead of lowercasing emails. -/
theorem c10_no_email_transform :
    hasAttrRem "normalize_emails" = false
    ∧ "normalize_emails" ∉ remediatorAttrs
    ∧ "email_fixes" ∉ statsKeys
    ∧ remediatorTransforms.length = 4
    ∧ (∀ name, name ∈ remediatorTransforms → name ∈ remediatorAttrs)
    ∧ (∀ t : Table, mainCleanChain t = .error (PyErr.attributeError "normalize_emails")) := by
  refine ⟨by decide, by decide, by decide, rfl, by decide, ?_⟩
  intro t
  rfl
